import Mathlib

/-!
Shallow embedding of the CropPlanning decision pipeline
(src/modules/farmer_profile.py, src/modules/crop_recommendation.py,
src/modules/risk_analysis.py, src/modules/financial_planner.py),
together with theorems settling the frozen claims about the
natural-language specification.

Conventions.
* Python floats are modelled as rationals; all the arithmetic in the
  source is elementary (+, -, *, /, min, max, abs, integer // and %).
* Wherever the source performs a division whose denominator can be zero
  without a guard, Python raises ZeroDivisionError; such a function is
  embedded with an Option result (none = exception).  Divisions that the
  source guards (with an explicit `if denom > 0`) keep their guard.
* The wall-clock month read by `datetime.now().month` in
  CropRecommender._adjust_price and (0-indexed, minus one) in
  FinancialPlanner._generate_cash_flow is made an explicit parameter
  `month` / `startMonth` of the embedded functions.
* Python `list.sort(key=..., reverse=True)` is a stable descending sort;
  it is embedded as `List.insertionSort` with the non-strict relation
  `rankRel a b := key b ≤ key a`, which is also a stable descending sort
  and hence produces the identical output list.
* String-typed presentation fields that no computation in the pipeline
  reads (name, age, family_size, education, district, longitude on the
  profile; the formatted `recommendation` sentence of the financing
  dict) are omitted from the embedding.
-/

/-- FarmerProfile (src/modules/farmer_profile.py, dataclass fields that the
pipeline computations read). -/
structure FarmerProfile where
  experience_years : ℤ
  annual_income : ℚ
  savings : ℚ
  land_value : ℚ
  bank_loan : ℚ
  risk_tolerance : String
  investment_capacity : ℚ
  total_acres : ℚ
  irrigated_acres : ℚ
  soil_type : String
  irrigation_type : String
  state : String
  latitude : ℚ
deriving DecidableEq

namespace FarmerProfile

/-- debt_to_income_ratio derived in FarmerProfile.__post_init__ (line 40):
`bank_loan / annual_income if annual_income > 0 else 0`. -/
def debtToIncome (p : FarmerProfile) : ℚ :=
  if 0 < p.annual_income then p.bank_loan / p.annual_income else 0

/-- FarmerProfile._get_region: state → agricultural region, default "Other". -/
def region (p : FarmerProfile) : String :=
  if p.state = "Punjab" then "North-West"
  else if p.state = "Haryana" then "North-West"
  else if p.state = "Uttar Pradesh" then "North"
  else if p.state = "Maharashtra" then "West"
  else if p.state = "Karnataka" then "South"
  else if p.state = "Tamil Nadu" then "South"
  else "Other"

/-- FarmerProfile._get_climate_zone: latitude thresholds 30 and 20. -/
def climateZone (p : FarmerProfile) : String :=
  if 30 < p.latitude then "Temperate"
  else if 20 < p.latitude then "Subtropical"
  else "Tropical"

end FarmerProfile

/-- One entry of CropRecommender._initialize_crop_database. -/
structure CropEntry where
  key : String
  name : String
  category : String
  duration : String
  growth_duration : ℕ
  water_requirement : String
  soil_preference : List String
  climate_zones : List String
  regions : List String
  base_yield : ℚ
  base_price : ℚ
  base_investment : ℚ
  sowing_season : String
  harvest_time : String
  risk_level : String
  disease_risk : String
  pest_risk : String
deriving DecidableEq

/-- The crop database, in dict insertion order (python dicts preserve
insertion order, so .items() iterates wheat, rice, maize, cotton,
sugarcane, pulses, vegetables). -/
def cropDatabase : List CropEntry :=
  [ { key := "wheat", name := "Wheat", category := "Cereal", duration := "Rabi",
      growth_duration := 120, water_requirement := "Medium",
      soil_preference := ["Loamy", "Clay"],
      climate_zones := ["Temperate", "Subtropical"],
      regions := ["North-West", "North"],
      base_yield := 3.5, base_price := 2200, base_investment := 25000,
      sowing_season := "October-November", harvest_time := "March-April",
      risk_level := "Low", disease_risk := "Medium", pest_risk := "Low" },
    { key := "rice", name := "Rice", category := "Cereal", duration := "Kharif",
      growth_duration := 150, water_requirement := "High",
      soil_preference := ["Clay", "Alluvial"],
      climate_zones := ["Tropical", "Subtropical"],
      regions := ["North", "South", "West"],
      base_yield := 4.0, base_price := 1800, base_investment := 30000,
      sowing_season := "June-July", harvest_time := "October-November",
      risk_level := "Medium", disease_risk := "High", pest_risk := "Medium" },
    { key := "maize", name := "Maize", category := "Cereal", duration := "Kharif/Rabi",
      growth_duration := 100, water_requirement := "Medium",
      soil_preference := ["Loamy", "Sandy"],
      climate_zones := ["Tropical", "Subtropical"],
      regions := ["North-West", "West", "South"],
      base_yield := 3.0, base_price := 1600, base_investment := 20000,
      sowing_season := "June-July / January-February",
      harvest_time := "September-October / April-May",
      risk_level := "Medium", disease_risk := "Medium", pest_risk := "Medium" },
    { key := "cotton", name := "Cotton", category := "Fiber", duration := "Kharif",
      growth_duration := 180, water_requirement := "Medium",
      soil_preference := ["Black Soil", "Red Soil"],
      climate_zones := ["Tropical", "Subtropical"],
      regions := ["West", "South"],
      base_yield := 1.5, base_price := 6000, base_investment := 35000,
      sowing_season := "May-June", harvest_time := "October-December",
      risk_level := "High", disease_risk := "High", pest_risk := "High" },
    { key := "sugarcane", name := "Sugarcane", category := "Cash Crop", duration := "Annual",
      growth_duration := 365, water_requirement := "High",
      soil_preference := ["Alluvial", "Clay"],
      climate_zones := ["Tropical", "Subtropical"],
      regions := ["North", "West", "South"],
      base_yield := 80, base_price := 300, base_investment := 50000,
      sowing_season := "February-March", harvest_time := "November-March",
      risk_level := "Medium", disease_risk := "Medium", pest_risk := "Low" },
    { key := "pulses", name := "Pulses (Chickpea)", category := "Pulse", duration := "Rabi",
      growth_duration := 120, water_requirement := "Low",
      soil_preference := ["Loamy", "Sandy"],
      climate_zones := ["Temperate", "Subtropical"],
      regions := ["North-West", "North", "West"],
      base_yield := 1.2, base_price := 4500, base_investment := 15000,
      sowing_season := "October-November", harvest_time := "March-April",
      risk_level := "Low", disease_risk := "Low", pest_risk := "Low" },
    { key := "vegetables", name := "Mixed Vegetables", category := "Horticulture",
      duration := "Short-term",
      growth_duration := 60, water_requirement := "High",
      soil_preference := ["Loamy", "Alluvial"],
      climate_zones := ["Tropical", "Subtropical"],
      regions := ["All"],
      base_yield := 8.0, base_price := 8000, base_investment := 40000,
      sowing_season := "Year-round", harvest_time := "60-90 days",
      risk_level := "Medium", disease_risk := "High", pest_risk := "High" } ]

/-- CropRecommender._check_water_compatibility. -/
def waterCompatible (c : CropEntry) (p : FarmerProfile) : Bool :=
  if c.water_requirement = "Low" then true
  else if c.water_requirement = "Medium" then decide (0 < p.irrigated_acres)
  else decide (p.total_acres * 0.5 ≤ p.irrigated_acres)

/-- CropRecommender._filter_suitable_crops: soil, climate zone, region and
water checks, in database iteration order. -/
def filterSuitableCrops (p : FarmerProfile) : List CropEntry :=
  cropDatabase.filter fun c =>
    c.soil_preference.contains p.soil_type
      && c.climate_zones.contains p.climateZone
      && (decide (c.regions = ["All"]) || c.regions.contains p.region)
      && waterCompatible c p

/-- CropRecommender._adjust_yield: soil multiplier (default 1.0), experience
multiplier min(1.2, 1 + 0.01·years), irrigation multiplier 0.8 + 0.4·coverage.
The source divides by total_acres unguarded; the documented input domain has
total_acres > 0. -/
def adjustYield (c : CropEntry) (p : FarmerProfile) : ℚ :=
  let soilMultiplier : ℚ :=
    if p.soil_type = "Clay" then 1.0
    else if p.soil_type = "Sandy" then 0.8
    else if p.soil_type = "Loamy" then 1.1
    else if p.soil_type = "Red Soil" then 0.9
    else if p.soil_type = "Black Soil" then 1.0
    else if p.soil_type = "Alluvial" then 1.2
    else 1.0
  let experienceMultiplier : ℚ := min 1.2 (1.0 + (p.experience_years : ℚ) * 0.01)
  let irrigationCoverage : ℚ := p.irrigated_acres / p.total_acres
  let irrigationMultiplier : ℚ := 0.8 + irrigationCoverage * 0.4
  c.base_yield * soilMultiplier * experienceMultiplier * irrigationMultiplier

/-- CropRecommender._adjust_price: regional multiplier (default 1.0) and
seasonal multiplier driven by the wall-clock month (datetime.now().month,
1-based).  Note the source compares crop duration with the exact strings
"Kharif" and "Rabi", so the maize tag "Kharif/Rabi" never matches. -/
def adjustPrice (c : CropEntry) (p : FarmerProfile) (month : ℕ) : ℚ :=
  let regionalMultiplier : ℚ :=
    if p.region = "North-West" then 1.1
    else if p.region = "North" then 1.0
    else if p.region = "West" then 0.95
    else if p.region = "South" then 0.9
    else 1.0
  let seasonalMultiplier : ℚ :=
    if c.duration = "Kharif" && (month == 6 || month == 7 || month == 8 || month == 9) then 1.1
    else if c.duration = "Rabi"
        && (month == 10 || month == 11 || month == 12 || month == 1 || month == 2) then 1.1
    else 1.0
  c.base_price * regionalMultiplier * seasonalMultiplier

/-- CropRecommender._adjust_investment: scale multiplier (1.0 if acres ≤ 5
else 0.9) and irrigation type multiplier (default 1.0). -/
def adjustInvestment (c : CropEntry) (p : FarmerProfile) : ℚ :=
  let scaleMultiplier : ℚ := if p.total_acres ≤ 5 then 1.0 else 0.9
  let irrigationMultiplier : ℚ :=
    if p.irrigation_type = "Well" then 1.1
    else if p.irrigation_type = "Canal" then 0.9
    else if p.irrigation_type = "Borewell" then 1.0
    else if p.irrigation_type = "Rainfed" then 0.8
    else if p.irrigation_type = "Mixed" then 1.0
    else 1.0
  c.base_investment * scaleMultiplier * irrigationMultiplier

/-- CropRecommender._calculate_irrigation_cost. -/
def irrigationCost (c : CropEntry) (p : FarmerProfile) : ℚ :=
  let baseCost : ℚ :=
    if c.water_requirement = "Low" then 5000
    else if c.water_requirement = "Medium" then 10000
    else if c.water_requirement = "High" then 15000
    else 10000
  if p.irrigation_type = "Canal" then baseCost * 0.5
  else if p.irrigation_type = "Well" then baseCost * 0.8
  else baseCost

/-- CropRecommender._calculate_risk_score: base risk by level (default 0.5),
tolerance multiplier, experience discount, capped at 1.0. -/
def riskScore (c : CropEntry) (p : FarmerProfile) : ℚ :=
  let base : ℚ :=
    if c.risk_level = "Low" then 0.2
    else if c.risk_level = "Medium" then 0.5
    else if c.risk_level = "High" then 0.8
    else 0.5
  let afterTolerance : ℚ :=
    if p.risk_tolerance = "Low" then base * 1.2
    else if p.risk_tolerance = "High" then base * 0.8
    else base
  let afterExperience : ℚ :=
    if 10 < p.experience_years then afterTolerance * 0.9 else afterTolerance
  min 1.0 afterExperience

/-- Models the 2-decimal rounding performed by the f-string
`f"{adjusted_yield:.2f}"` in _rank_crops, reparsed downstream by
the reparse of the formatted yield string.  (Tie behaviour of the formatting is
immaterial to every claim.) -/
def round2 (q : ℚ) : ℚ := (round (q * 100) : ℤ) / 100

/-- One element of the ranked list built by CropRecommender._rank_crops. -/
structure RankedCrop where
  name : String
  category : String
  expected_yield : ℚ
  sowing_season : String
  harvest_time : String
  water_requirement : String
  growth_duration : ℕ
  investment : ℚ
  expected_revenue : ℚ
  net_profit : ℚ
  roi : ℚ
  risk_level : String
  irrigation_cost : ℚ
  risk_score : ℚ
deriving DecidableEq

/-- The dict appended per suitable crop in _rank_crops (lines 203-218). -/
def mkRankedCrop (p : FarmerProfile) (month : ℕ) (c : CropEntry) : RankedCrop :=
  let adjustedYield := adjustYield c p
  let adjustedPrice := adjustPrice c p month
  let adjustedInvestment := adjustInvestment c p
  let expectedRevenue := adjustedYield * adjustedPrice
  let netProfit := expectedRevenue - adjustedInvestment
  { name := c.name
    category := c.category
    expected_yield := round2 adjustedYield
    sowing_season := c.sowing_season
    harvest_time := c.harvest_time
    water_requirement := c.water_requirement
    growth_duration := c.growth_duration
    investment := adjustedInvestment
    expected_revenue := expectedRevenue
    net_profit := netProfit
    roi := if 0 < adjustedInvestment then netProfit / adjustedInvestment * 100 else 0
    risk_level := c.risk_level
    irrigation_cost := irrigationCost c p
    risk_score := riskScore c p }

/-- The sort key of _rank_crops line 221: roi × (1 − risk_score). -/
def rankKey (x : RankedCrop) : ℚ := x.roi * (1 - x.risk_score)

/-- The comparison used to sort descending by rankKey.  A stable sort with
this non-strict relation coincides with python list.sort(key, reverse=True). -/
def rankRel (a b : RankedCrop) : Prop := rankKey b ≤ rankKey a

instance : DecidableRel rankRel := fun a b => inferInstanceAs (Decidable (_ ≤ _))

instance : IsTotal RankedCrop rankRel := ⟨fun a b => le_total (rankKey b) (rankKey a)⟩

instance : IsTrans RankedCrop rankRel := ⟨fun _ _ _ hab hbc => le_trans hbc hab⟩

/-- CropRecommender._rank_crops: build the per-crop dicts, sort descending by
roi×(1−risk_score) (stably), keep the top 5. -/
def rankCrops (suitable : List CropEntry) (p : FarmerProfile) (month : ℕ) : List RankedCrop :=
  (List.insertionSort rankRel (suitable.map (mkRankedCrop p month))).take 5

/-- Count-by-level distribution inside _calculate_overall_risk. -/
structure RiskDistribution where
  low : ℕ
  medium : ℕ
  high : ℕ
deriving DecidableEq

/-- Result of CropRecommender._calculate_overall_risk; the empty-input branch
returns a dict without the distribution key, modelled as none. -/
structure RecRiskProfile where
  level : String
  score : ℚ
  distribution : Option RiskDistribution
deriving DecidableEq

/-- CropRecommender._calculate_overall_risk. -/
def calcOverallRecRisk (crops : List RankedCrop) : RecRiskProfile :=
  if crops = [] then { level := "Unknown", score := 0, distribution := none }
  else
    let avg := (crops.map (·.risk_score)).sum / crops.length
    { level := if avg < 0.3 then "Low" else if avg < 0.6 then "Medium" else "High"
      score := avg
      distribution := some
        { low := (crops.filter (·.risk_level = "Low")).length
          medium := (crops.filter (·.risk_level = "Medium")).length
          high := (crops.filter (·.risk_level = "High")).length } }

/-- Result of CropRecommender._calculate_investment_summary; the empty-input
branch returns a dict with only the first two keys, modelled as none for the
other two.  In the non-empty branch the source divides by total_acres and by
investment_capacity unguarded (ZeroDivisionError on a zero denominator);
those denominators are nonzero on the inputs every claim quantifies over. -/
structure InvestmentSummary where
  total_investment : ℚ
  affordable_crops : ℕ
  investment_per_acre : Option ℚ
  utilization_rate : Option ℚ
deriving DecidableEq

/-- CropRecommender._calculate_investment_summary. -/
def calcInvestmentSummary (crops : List RankedCrop) (p : FarmerProfile) : InvestmentSummary :=
  if crops = [] then
    { total_investment := 0, affordable_crops := 0,
      investment_per_acre := none, utilization_rate := none }
  else
    let total := (crops.map (·.investment)).sum
    { total_investment := total
      affordable_crops := (crops.filter (·.investment ≤ p.investment_capacity)).length
      investment_per_acre := some (total / p.total_acres)
      utilization_rate := some (total / p.investment_capacity * 100) }

/-- Result of CropRecommender.get_recommendations. -/
structure Recommendations where
  crops : List RankedCrop
  total_recommendations : ℕ
  risk_profile : RecRiskProfile
  investment_summary : InvestmentSummary
deriving DecidableEq

/-- CropRecommender.get_recommendations, with the wall-clock month read by
_adjust_price made explicit. -/
def getRecommendations (p : FarmerProfile) (month : ℕ) : Recommendations :=
  let recommended := rankCrops (filterSuitableCrops p) p month
  { crops := recommended
    total_recommendations := recommended.length
    risk_profile := calcOverallRecRisk recommended
    investment_summary := calcInvestmentSummary recommended p }

/-! ### Financial planner (src/modules/financial_planner.py) -/

/-- FinancialPlanner._get_crop_timeline: months = max(1, growth_duration // 30);
land-prep month 0, sowing month 1, irrigation month max(2, months // 3),
harvest month = months. -/
structure Timeline where
  land_prep : ℕ
  sowing : ℕ
  irrigation : ℕ
  harvest : ℕ
deriving DecidableEq

def getCropTimeline (growth_duration : ℕ) : Timeline :=
  let months := max 1 (growth_duration / 30)
  { land_prep := 0, sowing := 1, irrigation := max 2 (months / 3), harvest := months }

/-- The value the dict literal of FinancialPlanner._distribute_expenses
associates to a month key.  The python dict literal
`{lp: 0.2·I, sow: 0.3·I, irr: 0.3·I, harv: 0.2·I}` keeps, for a duplicated
key, the LAST entry written, so later entries are tested first here. -/
def distributionValue (t : Timeline) (totalInvestment : ℚ) (k : ℕ) : ℚ :=
  if k = t.harvest then totalInvestment * 0.2
  else if k = t.irrigation then totalInvestment * 0.3
  else if k = t.sowing then totalInvestment * 0.3
  else if k = t.land_prep then totalInvestment * 0.2
  else 0

/-- Deduplication keeping the first occurrence of every element, the key
order of a python dict literal. -/
def firstOccurrences (seen : List ℕ) : List ℕ → List ℕ
  | [] => []
  | x :: xs =>
      if x ∈ seen then firstOccurrences seen xs
      else x :: firstOccurrences (x :: seen) xs

/-- The .items() view of the _distribute_expenses dict: one pair per distinct
key (python dicts key on first insertion, value of last write). -/
def distributeExpenses (t : Timeline) (totalInvestment : ℚ) : List (ℕ × ℚ) :=
  (firstOccurrences [] [t.land_prep, t.sowing, t.irrigation, t.harvest]).map
    fun k => (k, distributionValue t totalInvestment k)

/-- Models `l[i] += v` on a python list (index always < 12 here). -/
def addInto (l : List ℚ) (i : ℕ) (v : ℚ) : List ℚ := l.set i (l.getD i 0 + v)

/-- Expenses half of FinancialPlanner._calculate_crop_cash_flow: spread the
distribution over the 12 calendar buckets, wrapping modulo 12 from
startMonth (= datetime.now().month - 1). -/
def cropExpenses (crop : RankedCrop) (startMonth : ℕ) : List ℚ :=
  (distributeExpenses (getCropTimeline crop.growth_duration) crop.investment).foldl
    (fun acc kv => addInto acc ((startMonth + kv.1) % 12) kv.2)
    (List.replicate 12 0)

/-- Income half of _calculate_crop_cash_flow: post the full expected revenue
in the harvest bucket. -/
def cropIncome (crop : RankedCrop) (startMonth : ℕ) : List ℚ :=
  addInto (List.replicate 12 0)
    ((startMonth + (getCropTimeline crop.growth_duration).harvest) % 12)
    crop.expected_revenue

/-- python min over a non-empty list (0 for the empty list, which the source
guards with `if cumulative_cash_flow else 0`). -/
def pyMin (l : List ℚ) : ℚ :=
  match l with
  | [] => 0
  | x :: xs => xs.foldl min x

/-- The summary sub-dict of FinancialPlanner._generate_cash_flow. -/
structure CashFlowSummary where
  total_expenses : ℚ
  total_income : ℚ
  net_cash_flow : ℚ
  peak_cash_requirement : ℚ
  positive_months : ℕ
  negative_months : ℕ
deriving DecidableEq

/-- Result of FinancialPlanner._generate_cash_flow. -/
structure CashFlow where
  monthly_expenses : List ℚ
  monthly_income : List ℚ
  monthly_net : List ℚ
  cumulative_cash_flow : List ℚ
  summary : CashFlowSummary
deriving DecidableEq

/-- FinancialPlanner._generate_cash_flow, with the 0-indexed current month
(datetime.now().month - 1) as the explicit parameter startMonth.  The
cumulative series is the running total of monthly_net, and the peak cash
requirement is abs(min(cumulative)) (the source falls back to 0 only for an
empty cumulative list, which cannot happen for the fixed 12 buckets). -/
def generateCashFlow (startMonth : ℕ) (crops : List RankedCrop) : CashFlow :=
  let monthlyExpenses :=
    crops.foldl (fun acc c => List.zipWith (· + ·) acc (cropExpenses c startMonth))
      (List.replicate 12 0)
  let monthlyIncome :=
    crops.foldl (fun acc c => List.zipWith (· + ·) acc (cropIncome c startMonth))
      (List.replicate 12 0)
  let monthlyNet := List.zipWith (fun income expense => income - expense)
    monthlyIncome monthlyExpenses
  let cumulative := (monthlyNet.scanl (· + ·) 0).tail
  { monthly_expenses := monthlyExpenses
    monthly_income := monthlyIncome
    monthly_net := monthlyNet
    cumulative_cash_flow := cumulative
    summary :=
      { total_expenses := monthlyExpenses.sum
        total_income := monthlyIncome.sum
        net_cash_flow := monthlyIncome.sum - monthlyExpenses.sum
        peak_cash_requirement := if cumulative = [] then 0 else |pyMin cumulative|
        positive_months := (monthlyNet.filter (fun x => 0 < x)).length
        negative_months := (monthlyNet.filter (fun x => x < 0)).length } }

/-- Result of FinancialPlanner._calculate_break_even. -/
structure BreakEven where
  break_even_yield : ℚ
  break_even_price : ℚ
  safety_margin : ℚ
deriving DecidableEq

/-- FinancialPlanner._calculate_break_even; total_expected_yield re-parses the
2-decimal expected_yield strings. -/
def calcBreakEven (crops : List RankedCrop) : BreakEven :=
  if crops = [] then { break_even_yield := 0, break_even_price := 0, safety_margin := 0 }
  else
    let totalInvestment := (crops.map (·.investment)).sum
    let totalRevenue := (crops.map (·.expected_revenue)).sum
    let totalYield := (crops.map (·.expected_yield)).sum
    if 0 < totalYield then
      let avgPrice := totalRevenue / totalYield
      { break_even_yield := totalInvestment / avgPrice
        break_even_price := totalInvestment / totalYield
        safety_margin := (totalYield - totalInvestment / avgPrice) / totalYield * 100 }
    else { break_even_yield := 0, break_even_price := 0, safety_margin := 0 }

/-- FinancialPlanner._calculate_risk_adjusted_roi: ROI weighted by risk level
(Low 1.0, Medium 0.8, High 0.6, default 0.8). -/
def calcRiskAdjustedRoi (crops : List RankedCrop) : ℚ :=
  if crops = [] then 0
  else
    let weightOf : RankedCrop → ℚ := fun c =>
      if c.risk_level = "Low" then 1.0
      else if c.risk_level = "Medium" then 0.8
      else if c.risk_level = "High" then 0.6
      else 0.8
    let totalRoi := (crops.map fun c => c.roi * weightOf c).sum
    let totalWeight := (crops.map weightOf).sum
    if 0 < totalWeight then totalRoi / totalWeight else 0

/-- FinancialPlanner._assess_financial_health. -/
def assessFinancialHealth (p : FarmerProfile) (totalInvestment roi : ℚ) : String :=
  if p.investment_capacity < totalInvestment then "High Risk - Investment exceeds capacity"
  else if roi < 10 then "Low Return - Consider alternatives"
  else if roi < 20 then "Moderate Return - Acceptable"
  else "Good Return - Recommended"

/-- Result of FinancialPlanner.analyze_financials.  The empty-recommendation
branch returns an empty dict for cash_flow_summary, modelled as none. -/
structure FinancialAnalysis where
  total_investment : ℚ
  total_revenue : ℚ
  net_profit : ℚ
  investment_per_acre : ℚ
  revenue_per_acre : ℚ
  profit_per_acre : ℚ
  roi : ℚ
  profit_margin : ℚ
  monthly_expenses : List ℚ
  monthly_income : List ℚ
  break_even_yield : ℚ
  break_even_price : ℚ
  safety_margin : ℚ
  risk_adjusted_roi : ℚ
  cash_flow_summary : Option CashFlowSummary
  financial_health : String
deriving DecidableEq

/-- FinancialPlanner._empty_financial_analysis. -/
def emptyFinancialAnalysis : FinancialAnalysis :=
  { total_investment := 0, total_revenue := 0, net_profit := 0,
    investment_per_acre := 0, revenue_per_acre := 0, profit_per_acre := 0,
    roi := 0, profit_margin := 0,
    monthly_expenses := List.replicate 12 0, monthly_income := List.replicate 12 0,
    break_even_yield := 0, break_even_price := 0, safety_margin := 0,
    risk_adjusted_roi := 0, cash_flow_summary := none, financial_health := "Unknown" }

/-- FinancialPlanner.analyze_financials.  The per-acre metrics divide by
total_acres unguarded in the source (ZeroDivisionError when it is 0; the
documented domain has total_acres > 0); ROI and profit margin carry the
explicit `> 0` guards of the source. -/
def analyzeFinancials (p : FarmerProfile) (month : ℕ) (recs : Recommendations) :
    FinancialAnalysis :=
  if recs.crops = [] then emptyFinancialAnalysis
  else
    let totalInvestment := (recs.crops.map (·.investment)).sum
    let totalRevenue := (recs.crops.map (·.expected_revenue)).sum
    let totalProfit := (recs.crops.map (·.net_profit)).sum
    let cashFlow := generateCashFlow (month - 1) recs.crops
    let breakEven := calcBreakEven recs.crops
    let roi := if 0 < totalInvestment then totalProfit / totalInvestment * 100 else 0
    { total_investment := totalInvestment
      total_revenue := totalRevenue
      net_profit := totalProfit
      investment_per_acre := totalInvestment / p.total_acres
      revenue_per_acre := totalRevenue / p.total_acres
      profit_per_acre := totalProfit / p.total_acres
      roi := roi
      profit_margin := if 0 < totalRevenue then totalProfit / totalRevenue * 100 else 0
      monthly_expenses := cashFlow.monthly_expenses
      monthly_income := cashFlow.monthly_income
      break_even_yield := breakEven.break_even_yield
      break_even_price := breakEven.break_even_price
      safety_margin := breakEven.safety_margin
      risk_adjusted_roi := calcRiskAdjustedRoi recs.crops
      cash_flow_summary := some cashFlow.summary
      financial_health := assessFinancialHealth p totalInvestment roi }

/-- FinancialPlanner._calculate_scenario_roi.  The source divides by
the reparsed expected_yield value with no guard, so a crop with a zero yield
raises ZeroDivisionError (none); the empty list short-circuits to 0 first. -/
def calcScenarioRoi (crops : List RankedCrop)
    (yieldMultiplier priceMultiplier costMultiplier : ℚ) : Option ℚ :=
  if crops = [] then some 0
  else if crops.any (fun c => c.expected_yield == 0) then none
  else
    let totalInvestment := (crops.map fun c => c.investment * costMultiplier).sum
    let totalRevenue := (crops.map fun c =>
      c.expected_yield * yieldMultiplier * (c.expected_revenue / c.expected_yield)
        * priceMultiplier).sum
    if 0 < totalInvestment then
      some ((totalRevenue - totalInvestment) / totalInvestment * 100)
    else some 0

/-- Result of FinancialPlanner._perform_sensitivity_analysis, scenario keys in
dict order. -/
structure Sensitivity where
  base_roi : ℚ
  yield_reduction_20 : ℚ
  yield_reduction_40 : ℚ
  price_reduction_15 : ℚ
  price_reduction_30 : ℚ
  cost_increase_20 : ℚ
  cost_increase_40 : ℚ
  worst_case_roi : ℚ
  best_case_roi : ℚ
deriving DecidableEq

/-- FinancialPlanner._perform_sensitivity_analysis: recompute ROI under the
six fixed stress scenarios; worst/best = min/max over the scenario dict
values. -/
def performSensitivityAnalysis (p : FarmerProfile) (month : ℕ)
    (recs : Recommendations) : Option Sensitivity := do
  let y20 ← calcScenarioRoi recs.crops 0.8 1 1
  let y40 ← calcScenarioRoi recs.crops 0.6 1 1
  let p15 ← calcScenarioRoi recs.crops 1 0.85 1
  let p30 ← calcScenarioRoi recs.crops 1 0.7 1
  let c20 ← calcScenarioRoi recs.crops 1 1 1.2
  let c40 ← calcScenarioRoi recs.crops 1 1 1.4
  some
    { base_roi := (analyzeFinancials p month recs).roi
      yield_reduction_20 := y20
      yield_reduction_40 := y40
      price_reduction_15 := p15
      price_reduction_30 := p30
      cost_increase_20 := c20
      cost_increase_40 := c40
      worst_case_roi := min y20 (min y40 (min p15 (min p30 (min c20 c40))))
      best_case_roi := max y20 (max y40 (max p15 (max p30 (max c20 c40)))) }

/-- FinancialPlanner._calculate_emi: amortized monthly payment, with the
degenerate r = 0 branch of the source. -/
def calcEmi (principal : ℚ) (months : ℕ) (annualRate : ℚ) : ℚ :=
  let monthlyRate := annualRate / 12
  if monthlyRate = 0 then principal / months
  else principal * (monthlyRate * (1 + monthlyRate) ^ months)
    / ((1 + monthlyRate) ^ months - 1)

/-- Result of FinancialPlanner._generate_financing_recommendations (the
formatted `recommendation` sentence is presentation-only and omitted; the
monthly_emi key exists only in the financing branch). -/
structure FinancingRec where
  financing_needed : Bool
  loan_amount : ℚ
  loan_type : String
  monthly_emi : Option ℚ
deriving DecidableEq

/-- FinancialPlanner._generate_financing_recommendations. -/
def generateFinancingRecommendations (p : FarmerProfile) (totalInvestment : ℚ) :
    FinancingRec :=
  if totalInvestment ≤ p.investment_capacity then
    { financing_needed := false, loan_amount := 0, loan_type := "None", monthly_emi := none }
  else
    let loanAmount := totalInvestment - p.investment_capacity
    { financing_needed := true
      loan_amount := loanAmount
      loan_type :=
        if loanAmount < 100000 then "Kisan Credit Card"
        else if loanAmount < 500000 then "Agricultural Term Loan"
        else "Multiple loan sources"
      monthly_emi := some (calcEmi loanAmount 12 0.08) }

/-- FinancialPlanner._suggest_risk_mitigation.  It reads
the peak_cash_requirement key of the cash_flow_summary dict, so the
cash-flow summary is taken as a required argument (the empty summary case
raises KeyError and is handled by the caller). -/
def suggestRiskMitigation (fa : FinancialAnalysis) (cfs : CashFlowSummary) : List String :=
  (if fa.roi < 15 then ["Consider crop insurance to protect against yield losses"] else [])
    ++ (if 50000 < cfs.peak_cash_requirement then
          ["Arrange credit line for peak cash requirement periods"] else [])
    ++ (if fa.safety_margin < 20 then
          ["Focus on cost optimization and yield improvement"] else [])
    ++ (if fa.risk_adjusted_roi < fa.roi * 0.8 then
          ["Diversify crop portfolio to reduce risk concentration"] else [])

/-- Result of FinancialPlanner.generate_financial_report. -/
structure FinancialReport where
  analysis : FinancialAnalysis
  sensitivity_analysis : Sensitivity
  financing_recommendations : FinancingRec
  risk_mitigation : List String
deriving DecidableEq

/-- FinancialPlanner.generate_financial_report.  With an empty crop list,
analyze_financials returns an empty cash_flow_summary dict and
_suggest_risk_mitigation raises KeyError on it (none); with a zero-yield
crop the sensitivity analysis raises ZeroDivisionError (none). -/
def generateFinancialReport (p : FarmerProfile) (month : ℕ)
    (recs : Recommendations) : Option FinancialReport := do
  let fa := analyzeFinancials p month recs
  let sens ← performSensitivityAnalysis p month recs
  let financing := generateFinancingRecommendations p fa.total_investment
  match fa.cash_flow_summary with
  | none => none
  | some cfs =>
      some { analysis := fa, sensitivity_analysis := sens,
             financing_recommendations := financing,
             risk_mitigation := suggestRiskMitigation fa cfs }

/-! ### Risk analyzer (src/modules/risk_analysis.py) -/

/-- Per-category result of the RiskAnalyzer (level, probability percentage,
impact qualifier, mitigation text, insurance availability). -/
structure RiskAssessment where
  level : String
  probability : ℚ
  impact : String
  mitigation : String
  insurance : Bool
deriving DecidableEq

/-- Models the python expression crop_name.lower().split()[0]: the first whitespace-delimited
word of the crop name, lower-cased. -/
def firstWordLower (s : String) : String :=
  String.mk ((s.data.takeWhile (fun c => c != ' ')).map Char.toLower)

/-- Probabilities of the per-crop disease table in _initialize_risk_factors
(the impact/mitigation columns of the table are never read by the
analyzer).  Returns none for keys absent from the table. -/
def diseaseProbability (key : String) : Option ℚ :=
  if key = "wheat" then some 0.3
  else if key = "rice" then some 0.4
  else if key = "maize" then some 0.25
  else if key = "cotton" then some 0.5
  else if key = "sugarcane" then some 0.2
  else if key = "pulses" then some 0.15
  else if key = "vegetables" then some 0.6
  else none

/-- Probabilities of the per-crop pest table in _initialize_risk_factors. -/
def pestProbability (key : String) : Option ℚ :=
  if key = "wheat" then some 0.2
  else if key = "rice" then some 0.35
  else if key = "maize" then some 0.3
  else if key = "cotton" then some 0.6
  else if key = "sugarcane" then some 0.15
  else if key = "pulses" then some 0.25
  else if key = "vegetables" then some 0.7
  else none

/-- The "Unknown" degradation returned by the per-crop category analyses when
the crop list is empty. -/
def unknownAssessment : RiskAssessment :=
  { level := "Unknown", probability := 0, impact := "Unknown", mitigation := "N/A",
    insurance := false }

/-- RiskAnalyzer._analyze_disease_risk: average the table probability over all
ranked crops (crops whose first name word is not in the table contribute 0),
bucket at 0.2/0.4. -/
def analyzeDiseaseRisk (recs : Recommendations) : RiskAssessment :=
  if recs.crops = [] then unknownAssessment
  else
    let total := (recs.crops.map fun c =>
      (diseaseProbability (firstWordLower c.name)).getD 0).sum
    let avg := total / recs.crops.length
    { level := if avg < 0.2 then "Low" else if avg < 0.4 then "Medium" else "High"
      probability := avg * 100
      impact := if 0.3 < avg then "Medium" else "Low"
      mitigation := "Regular monitoring and preventive measures"
      insurance := true }

/-- RiskAnalyzer._analyze_pest_risk: as disease but bucketed at 0.25/0.45. -/
def analyzePestRisk (recs : Recommendations) : RiskAssessment :=
  if recs.crops = [] then unknownAssessment
  else
    let total := (recs.crops.map fun c =>
      (pestProbability (firstWordLower c.name)).getD 0).sum
    let avg := total / recs.crops.length
    { level := if avg < 0.25 then "Low" else if avg < 0.45 then "Medium" else "High"
      probability := avg * 100
      impact := if 0.35 < avg then "Medium" else "Low"
      mitigation := "Integrated Pest Management (IPM)"
      insurance := true }

/-- RiskAnalyzer._analyze_weather_risk: regional base risk (default 0.3)
discounted by irrigation coverage. -/
def analyzeWeatherRisk (p : FarmerProfile) : RiskAssessment :=
  let base : ℚ :=
    if p.region = "North-West" then 0.3
    else if p.region = "North" then 0.4
    else if p.region = "West" then 0.35
    else if p.region = "South" then 0.25
    else 0.3
  let coverage := p.irrigated_acres / p.total_acres
  let risk := if 0.8 < coverage then base * 0.7
    else if 0.5 < coverage then base * 0.85
    else base
  { level := if risk < 0.25 then "Low" else if risk < 0.4 then "Medium" else "High"
    probability := risk * 100
    impact := if 0.35 < risk then "High" else "Medium"
    mitigation := "Weather monitoring and contingency planning"
    insurance := true }

/-- RiskAnalyzer._analyze_market_risk: base 0.35, adjusted by the number of
distinct shortlist categories and by the debt-to-income ratio. -/
def analyzeMarketRisk (p : FarmerProfile) (recs : Recommendations) : RiskAssessment :=
  let afterDiversity : ℚ :=
    if recs.crops = [] then 0.35
    else
      let diversity := ((recs.crops.map (·.category)).dedup).length
      if 3 < diversity then 0.35 * 0.8
      else if diversity = 1 then 0.35 * 1.2
      else 0.35
  let risk := if 0.5 < p.debtToIncome then afterDiversity * 1.3 else afterDiversity
  { level := if risk < 0.3 then "Low" else if risk < 0.5 then "Medium" else "High"
    probability := risk * 100
    impact := "Medium"
    mitigation := "Market diversification and forward contracts"
    insurance := false }

/-- RiskAnalyzer._analyze_water_risk: coverage-tier base averaged with the
irrigation-type risk (default 0.4). -/
def analyzeWaterRisk (p : FarmerProfile) : RiskAssessment :=
  let coverage := p.irrigated_acres / p.total_acres
  let base : ℚ := if coverage < 0.3 then 0.6 else if coverage < 0.6 then 0.4 else 0.25
  let typeRisk : ℚ :=
    if p.irrigation_type = "Well" then 0.3
    else if p.irrigation_type = "Canal" then 0.2
    else if p.irrigation_type = "Borewell" then 0.4
    else if p.irrigation_type = "Rainfed" then 0.7
    else if p.irrigation_type = "Mixed" then 0.25
    else 0.4
  let risk := (base + typeRisk) / 2
  { level := if risk < 0.3 then "Low" else if risk < 0.5 then "Medium" else "High"
    probability := risk * 100
    impact := if 0.4 < risk then "High" else "Medium"
    mitigation := "Water conservation and multiple sources"
    insurance := false }

/-- RiskAnalyzer._analyze_soil_risk: soil-type base risk (default 0.3)
adjusted by experience. -/
def analyzeSoilRisk (p : FarmerProfile) : RiskAssessment :=
  let base : ℚ :=
    if p.soil_type = "Clay" then 0.3
    else if p.soil_type = "Sandy" then 0.4
    else if p.soil_type = "Loamy" then 0.2
    else if p.soil_type = "Red Soil" then 0.35
    else if p.soil_type = "Black Soil" then 0.25
    else if p.soil_type = "Alluvial" then 0.2
    else 0.3
  let risk := if 15 < p.experience_years then base * 0.8
    else if p.experience_years < 5 then base * 1.2
    else base
  { level := if risk < 0.25 then "Low" else if risk < 0.4 then "Medium" else "High"
    probability := risk * 100
    impact := "Medium"
    mitigation := "Soil testing and organic matter management"
    insurance := false }

/-- Level/score pair produced by RiskAnalyzer._calculate_overall_risk and the
composite analyses. -/
structure ScoredLevel where
  level : String
  score : ℚ
deriving DecidableEq

/-- RiskAnalyzer._calculate_overall_risk applied, as in analyze_risks, to the
six category assessments in order disease, pest, weather, market, water,
soil, with the fixed positional weights .2/.15/.25/.2/.15/.05 (total 1). -/
def calcOverallRisk (cats : List RiskAssessment) : ScoredLevel :=
  if cats = [] then { level := "Unknown", score := 0 }
  else
    let weights : List ℚ := [0.2, 0.15, 0.25, 0.2, 0.15, 0.05]
    let weightAt : ℕ → ℚ := fun i => if h : i < weights.length then weights.get ⟨i, h⟩ else 0.1
    let pairs := (List.range cats.length).zip cats
    let totalWeighted := (pairs.map fun iw => iw.2.probability / 100 * weightAt iw.1).sum
    let totalWeight := (pairs.map fun iw => weightAt iw.1).sum
    let score := if 0 < totalWeight then totalWeighted / totalWeight else 0
    { level := if score < 0.3 then "Low" else if score < 0.5 then "Medium" else "High"
      score := score }

/-- RiskAnalyzer._analyze_economic_risk.  The source computes
investment_capacity / annual_income and savings / annual_income with NO
zero guard (unlike the debt_to_income_ratio computed by the profile), so a
profile with annual_income = 0 raises ZeroDivisionError: none. -/
def analyzeEconomicRisk (p : FarmerProfile) : Option ScoredLevel :=
  if p.annual_income = 0 then none
  else
    let debtRisk := min 1.0 (p.debtToIncome * 2)
    let investmentRisk := 1.0 - p.investment_capacity / p.annual_income
    let cashFlowRisk := 1.0 - p.savings / p.annual_income
    let score := debtRisk * 0.4 + investmentRisk * 0.3 + cashFlowRisk * 0.3
    some { level := if score < 0.3 then "Low" else if score < 0.6 then "Medium" else "High"
           score := score }

/-- RiskAnalyzer._analyze_environmental_risk: weather/water/soil probabilities
weighted .4/.4/.2. -/
def analyzeEnvironmentalRisk (p : FarmerProfile) : ScoredLevel :=
  let score := ((analyzeWeatherRisk p).probability * 0.4
    + (analyzeWaterRisk p).probability * 0.4
    + (analyzeSoilRisk p).probability * 0.2) / 100
  { level := if score < 0.3 then "Low" else if score < 0.5 then "Medium" else "High"
    score := score }

/-- Result of RiskAnalyzer._analyze_risk_tolerance. -/
structure ToleranceAnalysis where
  recommended_risk : String
  compatibility_score : ℚ
  max_loss_tolerance : ℚ
  min_profit_target : ℚ
  adjusted_recommendation : String
deriving DecidableEq

/-- RiskAnalyzer._analyze_risk_tolerance (with _get_adjusted_recommendation
inlined for the last field, as the source calls it). -/
def analyzeRiskTolerance (p : FarmerProfile) (overall : ScoredLevel) : ToleranceAnalysis :=
  let tolerance : ℚ :=
    if p.risk_tolerance = "Low" then 0.3
    else if p.risk_tolerance = "Medium" then 0.5
    else if p.risk_tolerance = "High" then 0.7
    else 0.5
  let gap := |overall.score - tolerance|
  { recommended_risk :=
      if tolerance + 0.2 < overall.score then "Lower risk crops recommended"
      else if overall.score < tolerance - 0.2 then "Higher return crops possible"
      else "Current plan suitable"
    compatibility_score := max 0 (100 - gap * 100)
    max_loss_tolerance := p.savings * 0.3
    min_profit_target := p.annual_income * 0.1
    adjusted_recommendation :=
      if tolerance + 0.2 < overall.score then "Consider lower-risk crops or insurance"
      else if overall.score < tolerance - 0.2 then
        "Can consider higher-return, higher-risk options"
      else "Current plan aligns with risk tolerance" }

/-- RiskAnalyzer._generate_mitigation_strategies.  The source returns
list(set(strategies)), whose iteration order is interpreter-dependent
(string hash randomization); it is modelled with List.dedup.  The generated
strings are pairwise distinct in practice and no claim reads this field, so
the arbitrary order is immaterial. -/
def generateMitigationStrategies (cats : List RiskAssessment) : List String :=
  ((cats.filter fun r => r.level = "Medium" ∨ r.level = "High").map
      (fun r => r.mitigation ++ " for " ++ r.level ++ " risk")
    ++ ["Regular monitoring and early warning systems",
        "Crop insurance for high-risk scenarios",
        "Diversification of crops and income sources",
        "Building financial reserves for emergencies"]).dedup

/-- Result of RiskAnalyzer.analyze_risks. -/
structure RiskReport where
  overall_risk : String
  risk_score : ℚ
  disease_risk : RiskAssessment
  pest_risk : RiskAssessment
  weather_risk : RiskAssessment
  market_risk : RiskAssessment
  water_risk : RiskAssessment
  soil_risk : RiskAssessment
  economic_risk : String
  economic_risk_score : ℚ
  environmental_risk : String
  environmental_risk_score : ℚ
  tolerance_analysis : ToleranceAnalysis
  risk_mitigation_strategies : List String
deriving DecidableEq

/-- RiskAnalyzer.analyze_risks; none when _analyze_economic_risk raises on a
zero annual income. -/
def analyzeRisks (p : FarmerProfile) (recs : Recommendations) : Option RiskReport := do
  let disease := analyzeDiseaseRisk recs
  let pest := analyzePestRisk recs
  let weather := analyzeWeatherRisk p
  let market := analyzeMarketRisk p recs
  let water := analyzeWaterRisk p
  let soil := analyzeSoilRisk p
  let cats := [disease, pest, weather, market, water, soil]
  let overall := calcOverallRisk cats
  let economic ← analyzeEconomicRisk p
  some
    { overall_risk := overall.level
      risk_score := overall.score
      disease_risk := disease
      pest_risk := pest
      weather_risk := weather
      market_risk := market
      water_risk := water
      soil_risk := soil
      economic_risk := economic.level
      economic_risk_score := economic.score
      environmental_risk := (analyzeEnvironmentalRisk p).level
      environmental_risk_score := (analyzeEnvironmentalRisk p).score
      tolerance_analysis := analyzeRiskTolerance p overall
      risk_mitigation_strategies := generateMitigationStrategies cats }

/-- The full decision pipeline on one farmer profile: crop ranking, then risk
analysis and financial planning on the ranked list.  Besides the profile,
the only other input the source stages read is the wall-clock month. -/
structure PipelineOutput where
  recommendations : Recommendations
  risks : Option RiskReport
  financial_report : Option FinancialReport
deriving DecidableEq

def fullPipeline (p : FarmerProfile) (month : ℕ) : PipelineOutput :=
  let recs := getRecommendations p month
  { recommendations := recs
    risks := analyzeRisks p recs
    financial_report := generateFinancialReport p month recs }

/-! ### Helper lemmas about the cash-flow arrays -/

theorem addInto_length (l : List ℚ) (i : ℕ) (v : ℚ) : (addInto l i v).length = l.length :=
  List.length_set l i _

theorem addInto_sum : ∀ (l : List ℚ) (i : ℕ) (v : ℚ), i < l.length →
    (addInto l i v).sum = l.sum + v
  | [], i, v, h => absurd h (by simp)
  | x :: t, 0, v, _ => by
      simp only [addInto, List.set_cons_zero, List.getD_cons_zero, List.sum_cons]
      ring
  | x :: t, i + 1, v, h => by
      have ih := addInto_sum t i v (by simpa using h)
      simp only [addInto, List.set_cons_succ, List.getD_cons_succ, List.sum_cons] at ih ⊢
      rw [ih]
      ring

theorem foldl_addInto_length (startMonth : ℕ) :
    ∀ (items : List (ℕ × ℚ)) (acc : List ℚ),
      (items.foldl (fun a kv => addInto a ((startMonth + kv.1) % 12) kv.2) acc).length
        = acc.length
  | [], _ => rfl
  | kv :: rest, acc => by
      rw [List.foldl_cons, foldl_addInto_length startMonth rest, addInto_length]

theorem cropExpenses_length (c : RankedCrop) (startMonth : ℕ) :
    (cropExpenses c startMonth).length = 12 := by
  unfold cropExpenses
  rw [foldl_addInto_length, List.length_replicate]

theorem cropIncome_length (c : RankedCrop) (startMonth : ℕ) :
    (cropIncome c startMonth).length = 12 := by
  unfold cropIncome
  rw [addInto_length, List.length_replicate]

theorem cropIncome_sum (c : RankedCrop) (startMonth : ℕ) :
    (cropIncome c startMonth).sum = c.expected_revenue := by
  unfold cropIncome
  rw [addInto_sum _ _ _ (by rw [List.length_replicate]; exact Nat.mod_lt _ (by norm_num))]
  simp

theorem zipWith_add_length (a b : List ℚ) :
    (List.zipWith (· + ·) a b).length = min a.length b.length :=
  List.length_zipWith _ a b

theorem zipWith_add_sum : ∀ (a b : List ℚ), a.length = b.length →
    (List.zipWith (· + ·) a b).sum = a.sum + b.sum
  | [], [], _ => by simp
  | [], _ :: _, h => by simp at h
  | _ :: _, [], h => by simp at h
  | x :: xs, y :: ys, h => by
      rw [List.zipWith_cons_cons, List.sum_cons, List.sum_cons, List.sum_cons,
        zipWith_add_sum xs ys (by simpa using h)]
      ring

theorem incomeFold_length (startMonth : ℕ) :
    ∀ (crops : List RankedCrop) (acc : List ℚ), acc.length = 12 →
      (crops.foldl (fun a c => List.zipWith (· + ·) a (cropIncome c startMonth)) acc).length = 12
  | [], _, h => h
  | c :: rest, acc, h => by
      rw [List.foldl_cons]
      exact incomeFold_length startMonth rest _
        (by rw [zipWith_add_length, h, cropIncome_length]; norm_num)

theorem incomeFold_sum (startMonth : ℕ) :
    ∀ (crops : List RankedCrop) (acc : List ℚ), acc.length = 12 →
      (crops.foldl (fun a c => List.zipWith (· + ·) a (cropIncome c startMonth)) acc).sum
        = acc.sum + (crops.map (·.expected_revenue)).sum
  | [], _, _ => by simp
  | c :: rest, acc, h => by
      rw [List.foldl_cons,
        incomeFold_sum startMonth rest _ (by rw [zipWith_add_length, h, cropIncome_length]; norm_num),
        zipWith_add_sum _ _ (by rw [h, cropIncome_length]), cropIncome_sum]
      simp only [List.map_cons, List.sum_cons]
      ring

theorem expenseFold_length (startMonth : ℕ) :
    ∀ (crops : List RankedCrop) (acc : List ℚ), acc.length = 12 →
      (crops.foldl (fun a c => List.zipWith (· + ·) a (cropExpenses c startMonth)) acc).length
        = 12
  | [], _, h => h
  | c :: rest, acc, h => by
      rw [List.foldl_cons]
      exact expenseFold_length startMonth rest _
        (by rw [zipWith_add_length, h, cropExpenses_length]; norm_num)

/-- C7: for every starting month and every ranked crop list, the monthly
expense and income arrays of the cash-flow projection have length exactly
12, and the incomes sum exactly to the total expected revenue of the
ranked crops. -/
theorem cash_flow_arrays_length_and_income_sum (startMonth : ℕ) (crops : List RankedCrop) :
    (generateCashFlow startMonth crops).monthly_expenses.length = 12
      ∧ (generateCashFlow startMonth crops).monthly_income.length = 12
      ∧ (generateCashFlow startMonth crops).monthly_income.sum
          = (crops.map (·.expected_revenue)).sum := by
  refine ⟨?_, ?_, ?_⟩
  · exact expenseFold_length startMonth crops _ (List.length_replicate 12 0)
  · exact incomeFold_length startMonth crops _ (List.length_replicate 12 0)
  · rw [show (generateCashFlow startMonth crops).monthly_income
        = crops.foldl (fun a c => List.zipWith (· + ·) a (cropIncome c startMonth))
            (List.replicate 12 0) from rfl,
      incomeFold_sum startMonth crops _ (List.length_replicate 12 0)]
    simp

/-! ### Helper lemmas about python min and the cumulative series -/

theorem foldl_min_choice : ∀ (xs : List ℚ) (x : ℚ),
    xs.foldl min x = x ∨ xs.foldl min x ∈ xs
  | [], _ => Or.inl rfl
  | y :: ys, x => by
      rw [List.foldl_cons]
      rcases foldl_min_choice ys (min x y) with h | h
      · rcases min_cases x y with ⟨h2, _⟩ | ⟨h2, _⟩
        · exact Or.inl (h.trans h2)
        · exact Or.inr (by rw [h, h2]; exact List.mem_cons_self y ys)
      · exact Or.inr (List.mem_cons_of_mem y h)

theorem foldl_min_le_init : ∀ (xs : List ℚ) (x : ℚ), xs.foldl min x ≤ x
  | [], _ => le_refl _
  | y :: ys, x => by
      rw [List.foldl_cons]
      exact (foldl_min_le_init ys (min x y)).trans (min_le_left x y)

theorem foldl_min_le_mem : ∀ (xs : List ℚ) (x y : ℚ), y ∈ xs → xs.foldl min x ≤ y
  | [], _, _, h => absurd h (by simp)
  | z :: zs, x, y, h => by
      rw [List.foldl_cons]
      rcases List.mem_cons.mp h with rfl | h2
      · exact (foldl_min_le_init zs (min x y)).trans (min_le_right x y)
      · exact foldl_min_le_mem zs (min x z) y h2

theorem pyMin_mem : ∀ (l : List ℚ), l ≠ [] → pyMin l ∈ l
  | [], h => absurd rfl h
  | x :: xs, _ => by
      show xs.foldl min x ∈ x :: xs
      rcases foldl_min_choice xs x with h | h
      · rw [h]
        exact List.mem_cons_self x xs
      · exact List.mem_cons_of_mem x h

theorem pyMin_le : ∀ (l : List ℚ) (y : ℚ), y ∈ l → pyMin l ≤ y
  | [], _, h => absurd h (by simp)
  | x :: xs, y, h => by
      rcases List.mem_cons.mp h with rfl | h2
      · exact foldl_min_le_init xs y
      · exact foldl_min_le_mem xs x y h2

theorem cumulative_length (startMonth : ℕ) (crops : List RankedCrop) :
    (generateCashFlow startMonth crops).cumulative_cash_flow.length = 12 := by
  show ((List.zipWith _ _ _).scanl (· + ·) 0).tail.length = 12
  rw [List.length_tail, List.length_scanl, List.length_zipWith,
    incomeFold_length startMonth crops _ (List.length_replicate 12 0),
    expenseFold_length startMonth crops _ (List.length_replicate 12 0)]
  norm_num

/-- C4 (amended): the peak cash requirement of the cash-flow summary is the
absolute value of the minimum point of the cumulative series: when some
cumulative point is negative it is the absolute value of the most negative
point, but when every point is non-negative it equals the minimum
cumulative point itself (the source takes abs(min(...)) without clamping
at zero), not 0. -/
theorem peak_cash_requirement_abs_min (startMonth : ℕ) (crops : List RankedCrop)
    (hne : crops ≠ []) :
    ∃ m, m ∈ (generateCashFlow startMonth crops).cumulative_cash_flow
      ∧ (∀ x ∈ (generateCashFlow startMonth crops).cumulative_cash_flow, m ≤ x)
      ∧ (generateCashFlow startMonth crops).summary.peak_cash_requirement = |m|
      ∧ (m < 0 →
          (generateCashFlow startMonth crops).summary.peak_cash_requirement = -m)
      ∧ (0 ≤ m →
          (generateCashFlow startMonth crops).summary.peak_cash_requirement = m) := by
  have hlen := cumulative_length startMonth crops
  have hcum : (generateCashFlow startMonth crops).cumulative_cash_flow ≠ [] := by
    intro h
    rw [h] at hlen
    simp at hlen
  refine ⟨pyMin (generateCashFlow startMonth crops).cumulative_cash_flow,
    pyMin_mem _ hcum, fun x hx => pyMin_le _ x hx, ?_, ?_, ?_⟩
  · show (if (generateCashFlow startMonth crops).cumulative_cash_flow = [] then 0
      else |pyMin (generateCashFlow startMonth crops).cumulative_cash_flow|) = _
    rw [if_neg hcum]
  · intro hm
    show (if (generateCashFlow startMonth crops).cumulative_cash_flow = [] then 0
      else |pyMin (generateCashFlow startMonth crops).cumulative_cash_flow|) = _
    rw [if_neg hcum, abs_of_neg hm]
  · intro hm
    show (if (generateCashFlow startMonth crops).cumulative_cash_flow = [] then 0
      else |pyMin (generateCashFlow startMonth crops).cumulative_cash_flow|) = _
    rw [if_neg hcum, abs_of_nonneg hm]

theorem addInto_cons_zero (x : ℚ) (t : List ℚ) (v : ℚ) :
    addInto (x :: t) 0 v = (x + v) :: t := by
  simp [addInto]

theorem addInto_cons_succ (x : ℚ) (t : List ℚ) (i : ℕ) (v : ℚ) :
    addInto (x :: t) (i + 1) v = x :: addInto t i v := by
  simp [addInto]

/-- A concrete ranked crop for the cash-flow counterexample: 30-day growth,
investment 10000, expected revenue 100000. -/
def cropC4 : RankedCrop :=
  { name := "Test", category := "Cereal", expected_yield := 1,
    sowing_season := "-", harvest_time := "-", water_requirement := "Low",
    growth_duration := 30, investment := 10000, expected_revenue := 100000,
    net_profit := 90000, roi := 900, risk_level := "Low",
    irrigation_cost := 5000, risk_score := 0.2 }

theorem cropExpenses_cropC4 :
    cropExpenses cropC4 11 = [2000, 3000, 0, 0, 0, 0, 0, 0, 0, 0, 0, 2000] := by
  have h1 : distributeExpenses (getCropTimeline 30) (10000 : ℚ)
      = [(0, 2000), (1, 2000), (2, 3000)] := by
    norm_num +decide [distributeExpenses, getCropTimeline, distributionValue, firstOccurrences]
  show (distributeExpenses (getCropTimeline cropC4.growth_duration) cropC4.investment).foldl _ _
    = _
  rw [show cropC4.growth_duration = 30 from rfl, show cropC4.investment = (10000 : ℚ) from rfl,
    h1]
  norm_num [List.foldl, addInto_cons_zero, addInto_cons_succ, List.replicate]

theorem cropIncome_cropC4 :
    cropIncome cropC4 11 = [100000, 0, 0, 0, 0, 0, 0, 0, 0, 0, 0, 0] := by
  show addInto _ ((11 + (getCropTimeline cropC4.growth_duration).harvest) % 12) _ = _
  rw [show cropC4.growth_duration = 30 from rfl]
  norm_num [getCropTimeline, addInto_cons_zero, addInto_cons_succ, List.replicate,
    show cropC4.expected_revenue = (100000 : ℚ) from rfl]

/-- C4 (counterexample): a December run (startMonth 11) on a single 30-day
crop with investment 10000 and revenue 100000 posts its income in January,
so every cumulative point is positive (the full series is computed here),
yet the source reports a peak cash requirement of 93000, not the 0 the
claim requires when no cumulative point is negative. -/
theorem peak_nonzero_with_all_nonneg_cumulative :
    (generateCashFlow 11 [cropC4]).cumulative_cash_flow
        = [98000, 95000, 95000, 95000, 95000, 95000, 95000, 95000, 95000, 95000, 95000, 93000]
      ∧ (generateCashFlow 11 [cropC4]).summary.peak_cash_requirement = 93000
      ∧ (93000 : ℚ) ≠ 0 := by
  have hc : (generateCashFlow 11 [cropC4]).cumulative_cash_flow
      = [98000, 95000, 95000, 95000, 95000, 95000, 95000, 95000, 95000, 95000, 95000, 93000] := by
    simp only [generateCashFlow, List.foldl_cons, List.foldl_nil, cropExpenses_cropC4,
      cropIncome_cropC4]
    norm_num [List.zipWith, List.replicate, List.scanl]
  have hp : (generateCashFlow 11 [cropC4]).summary.peak_cash_requirement
      = if (generateCashFlow 11 [cropC4]).cumulative_cash_flow = [] then 0
        else |pyMin (generateCashFlow 11 [cropC4]).cumulative_cash_flow| := rfl
  refine ⟨hc, ?_, by norm_num⟩
  rw [hp, hc, if_neg (by simp)]
  norm_num [pyMin, List.foldl]

/-- C4 (witness): the amended statement instantiated on the concrete
counterexample input. -/
theorem peak_cash_requirement_abs_min_instance :
    ∃ m, m ∈ (generateCashFlow 11 [cropC4]).cumulative_cash_flow
      ∧ (∀ x ∈ (generateCashFlow 11 [cropC4]).cumulative_cash_flow, m ≤ x)
      ∧ (generateCashFlow 11 [cropC4]).summary.peak_cash_requirement = |m|
      ∧ (m < 0 → (generateCashFlow 11 [cropC4]).summary.peak_cash_requirement = -m)
      ∧ (0 ≤ m → (generateCashFlow 11 [cropC4]).summary.peak_cash_requirement = m) :=
  peak_cash_requirement_abs_min 11 [cropC4] (by simp)

/-- A concrete ranked crop mirroring the 60-day Mixed Vegetables catalog
entry with an adjusted investment of 40000. -/
def cropC3 : RankedCrop :=
  { name := "Mixed Vegetables", category := "Horticulture", expected_yield := 8,
    sowing_season := "Year-round", harvest_time := "60-90 days",
    water_requirement := "High", growth_duration := 60, investment := 40000,
    expected_revenue := 64000, net_profit := 24000, roi := 60,
    risk_level := "Medium", irrigation_cost := 15000, risk_score := 0.5 }

/-- C3: for a 60-day crop the timeline is land-prep 0, sowing 1, irrigation
max(2, 2/3) = 2 and harvest 2, so irrigation and harvest collide on month 2
and the dict literal of _distribute_expenses drops the irrigation share
(the harvest 20% overwrites the irrigation 30%): only 28000 of the 40000
investment reaches the expense buckets. -/
theorem expense_distribution_loses_collision_share :
    (cropExpenses cropC3 0).sum = 28000
      ∧ cropC3.investment = 40000
      ∧ (cropExpenses cropC3 0).sum ≠ cropC3.investment := by
  have h1 : distributeExpenses (getCropTimeline 60) (40000 : ℚ)
      = [(0, 8000), (1, 12000), (2, 8000)] := by
    norm_num +decide [distributeExpenses, getCropTimeline, distributionValue, firstOccurrences]
  have h2 : cropExpenses cropC3 0 = [8000, 12000, 8000, 0, 0, 0, 0, 0, 0, 0, 0, 0] := by
    show (distributeExpenses (getCropTimeline cropC3.growth_duration) cropC3.investment).foldl
      _ _ = _
    rw [show cropC3.growth_duration = 60 from rfl,
      show cropC3.investment = (40000 : ℚ) from rfl, h1]
    norm_num [List.foldl, addInto_cons_zero, addInto_cons_succ, List.replicate]
  rw [h2, show cropC3.investment = (40000 : ℚ) from rfl]
  norm_num

/-! ### Sortedness and stability of the ranking -/

/-- C6: for every farmer profile with positive acreage and every wall-clock
month, the recommended crop list is sorted in descending order of
roi × (1 − risk_score) and contains at most 5 crops. -/
theorem ranking_sorted_and_top5 (p : FarmerProfile) (month : ℕ)
    (h : 0 < p.total_acres) :
    (getRecommendations p month).crops.Pairwise rankRel
      ∧ (getRecommendations p month).crops.length ≤ 5 := by
  constructor
  · exact ((List.sorted_insertionSort rankRel
        ((filterSuitableCrops p).map (mkRankedCrop p month))).sublist
      (List.take_sublist 5 _))
  · exact List.length_take_le 5 _

/-- Position of a crop name in the catalog insertion order. -/
def namePos (n : String) : ℕ :=
  List.indexOf n ["Wheat", "Rice", "Maize", "Cotton", "Sugarcane",
    "Pulses (Chickpea)", "Mixed Vegetables"]

theorem mkRankedCrop_name (p : FarmerProfile) (month : ℕ) (c : CropEntry) :
    (mkRankedCrop p month c).name = c.name := rfl

theorem pairwise_stable_orderedInsert (pos : RankedCrop → ℕ) (x : RankedCrop) :
    ∀ s : List RankedCrop,
      s.Pairwise (fun a b => rankKey a = rankKey b → pos a < pos b) →
      (∀ y ∈ s, pos x < pos y) →
      (List.orderedInsert rankRel x s).Pairwise
        (fun a b => rankKey a = rankKey b → pos a < pos b)
  | [], _, _ => List.pairwise_singleton _ x
  | b :: t, hs, hx => by
      by_cases hr : rankRel x b
      · rw [List.orderedInsert, if_pos hr]
        exact List.Pairwise.cons (fun y hy _ => hx y hy) hs
      · rw [List.orderedInsert, if_neg hr]
        rcases List.pairwise_cons.mp hs with ⟨hbt, ht⟩
        refine List.Pairwise.cons ?_ (pairwise_stable_orderedInsert pos x t ht
          (fun y hy => hx y (List.mem_cons_of_mem b hy)))
        intro z hz heq
        rcases (List.mem_orderedInsert rankRel).mp hz with rfl | hz2
        · exact absurd (le_of_eq heq) hr
        · exact hbt z hz2 heq

theorem pairwise_stable_insertionSort (pos : RankedCrop → ℕ) :
    ∀ l : List RankedCrop, l.Pairwise (fun a b => pos a < pos b) →
      (List.insertionSort rankRel l).Pairwise
        (fun a b => rankKey a = rankKey b → pos a < pos b)
  | [], _ => List.Pairwise.nil
  | x :: t, h => by
      rcases List.pairwise_cons.mp h with ⟨hx, ht⟩
      rw [List.insertionSort]
      exact pairwise_stable_orderedInsert pos x _
        (pairwise_stable_insertionSort pos t ht)
        (fun y hy => hx y ((List.mem_insertionSort rankRel).mp hy))

/-- C10: whenever two recommended crops have the same ranking key
roi × (1 − risk_score), they appear in the output in catalog insertion
order (wheat, rice, maize, cotton, sugarcane, pulses, vegetables): the
filter preserves catalog iteration order and the sort is stable. -/
theorem equal_key_order_is_catalog_order (p : FarmerProfile) (month : ℕ)
    (h : 0 < p.total_acres) :
    (getRecommendations p month).crops.Pairwise
      (fun a b => rankKey a = rankKey b → namePos a.name < namePos b.name) := by
  have hdb : cropDatabase.Pairwise (fun a b => namePos a.name < namePos b.name) := by
    decide
  have hfilter : (filterSuitableCrops p).Pairwise
      (fun a b => namePos a.name < namePos b.name) :=
    hdb.sublist (List.filter_sublist cropDatabase)
  have hmap : ((filterSuitableCrops p).map (mkRankedCrop p month)).Pairwise
      (fun a b => namePos a.name < namePos b.name) := by
    rw [List.pairwise_map]
    exact hfilter
  exact (pairwise_stable_insertionSort (fun c => namePos c.name) _ hmap).sublist
    (List.take_sublist 5 _)

/-- A concrete in-domain profile (Punjab, Loamy soil, 5 acres of which 4 are
irrigated) used to instantiate the universally quantified theorems. -/
def pC5 : FarmerProfile :=
  { experience_years := 10, annual_income := 200000, savings := 100000,
    land_value := 500000, bank_loan := 0, risk_tolerance := "Medium",
    investment_capacity := 100000, total_acres := 5, irrigated_acres := 4,
    soil_type := "Loamy", irrigation_type := "Canal", state := "Punjab",
    latitude := 31 }

/-- C6 (witness): the sortedness and top-5 statement instantiated on a
concrete profile. -/
theorem ranking_sorted_and_top5_instance :
    (getRecommendations pC5 10).crops.Pairwise rankRel
      ∧ (getRecommendations pC5 10).crops.length ≤ 5 :=
  ranking_sorted_and_top5 pC5 10 (by norm_num [pC5])

/-- C10 (witness): the stable tie-break statement instantiated on a concrete
profile. -/
theorem equal_key_order_is_catalog_order_instance :
    (getRecommendations pC5 3).crops.Pairwise
      (fun a b => rankKey a = rankKey b → namePos a.name < namePos b.name) :=
  equal_key_order_is_catalog_order pC5 3 (by norm_num [pC5])

/-! ### Empty catalog match, financing, economic risk -/

/-- The zero-valued output contract for an empty catalog match: empty list,
Unknown/0 risk profile without a distribution key, all-zero two-key
investment summary. -/
def emptyMatchOutput : Recommendations where
  crops := []
  total_recommendations := 0
  risk_profile := { level := "Unknown", score := 0, distribution := none }
  investment_summary :=
    { total_investment := 0, affordable_crops := 0,
      investment_per_acre := none, utilization_rate := none }

/-- C8: when no catalog entry passes the filter, get_recommendations returns,
with no exception, an empty ranked list, the Unknown/0 risk profile (no
distribution key) and the all-zero two-key investment summary. -/
theorem empty_filter_empty_output (p : FarmerProfile) (month : ℕ)
    (h : filterSuitableCrops p = []) :
    getRecommendations p month = emptyMatchOutput := by
  have hcrops : rankCrops (filterSuitableCrops p) p month = [] := by
    rw [h]
    rfl
  simp only [getRecommendations, hcrops]
  rfl

/-- A profile whose desert soil matches no catalog entry. -/
def pDesert : FarmerProfile :=
  { experience_years := 5, annual_income := 100000, savings := 20000,
    land_value := 300000, bank_loan := 10000, risk_tolerance := "Low",
    investment_capacity := 50000, total_acres := 3, irrigated_acres := 1,
    soil_type := "Desert", irrigation_type := "Well", state := "Punjab",
    latitude := 31 }

/-- C8 (witness): the empty-match behaviour on a concrete profile that no
catalog soil set contains. -/
theorem empty_filter_empty_output_instance :
    getRecommendations pDesert 4 = emptyMatchOutput :=
  empty_filter_empty_output pDesert 4 (by decide)

/-- C9: financing needs nothing when the total investment fits the capacity,
and otherwise recommends a loan of exactly the shortfall, typed by the
100000 / 500000 brackets. -/
theorem financing_recommendation_brackets (p : FarmerProfile) (totalInvestment : ℚ) :
    (totalInvestment ≤ p.investment_capacity →
        generateFinancingRecommendations p totalInvestment =
          { financing_needed := false, loan_amount := 0, loan_type := "None",
            monthly_emi := none })
      ∧ (p.investment_capacity < totalInvestment →
          (generateFinancingRecommendations p totalInvestment).financing_needed = true
            ∧ (generateFinancingRecommendations p totalInvestment).loan_amount
                = totalInvestment - p.investment_capacity
            ∧ (generateFinancingRecommendations p totalInvestment).loan_type
                = (if totalInvestment - p.investment_capacity < 100000 then
                    "Kisan Credit Card"
                  else if totalInvestment - p.investment_capacity < 500000 then
                    "Agricultural Term Loan"
                  else "Multiple loan sources")) := by
  constructor
  · intro hle
    rw [generateFinancingRecommendations, if_pos hle]
  · intro hlt
    rw [generateFinancingRecommendations, if_neg (not_le.mpr hlt)]
    exact ⟨rfl, rfl, rfl⟩

/-- C9 (witness): a farmer with capacity 100000 facing a 150000 plan needs a
50000 Kisan Credit Card loan. -/
theorem financing_recommendation_brackets_instance :
    (generateFinancingRecommendations pC5 150000).financing_needed = true
      ∧ (generateFinancingRecommendations pC5 150000).loan_amount
          = 150000 - pC5.investment_capacity
      ∧ (generateFinancingRecommendations pC5 150000).loan_type
          = (if (150000 : ℚ) - pC5.investment_capacity < 100000 then "Kisan Credit Card"
            else if (150000 : ℚ) - pC5.investment_capacity < 500000 then
              "Agricultural Term Loan"
            else "Multiple loan sources") :=
  (financing_recommendation_brackets pC5 150000).2 (by norm_num [pC5])

/-- A profile inside the documented input domain (acres > 0, irrigated ≤
total, income ≥ 0) whose annual income is exactly 0. -/
def pZeroIncome : FarmerProfile :=
  { experience_years := 8, annual_income := 0, savings := 30000,
    land_value := 200000, bank_loan := 5000, risk_tolerance := "Medium",
    investment_capacity := 20000, total_acres := 2, irrigated_acres := 1,
    soil_type := "Loamy", irrigation_type := "Well", state := "Punjab",
    latitude := 31 }

/-- C1: a profile with annual_income = 0 lies inside the documented domain,
yet _analyze_economic_risk divides investment_capacity (and savings) by
annual_income with no guard, so the economic-risk computation raises
ZeroDivisionError (none) instead of substituting 0 — and the whole
analyze_risks call dies with it. -/
theorem economic_risk_division_by_zero_income :
    0 < pZeroIncome.total_acres
      ∧ pZeroIncome.irrigated_acres ≤ pZeroIncome.total_acres
      ∧ 0 ≤ pZeroIncome.annual_income
      ∧ analyzeEconomicRisk pZeroIncome = none
      ∧ analyzeRisks pZeroIncome (getRecommendations pZeroIncome 7) = none := by
  have he : analyzeEconomicRisk pZeroIncome = none := by
    rw [analyzeEconomicRisk, if_pos (show pZeroIncome.annual_income = 0 from rfl)]
  refine ⟨by norm_num [pZeroIncome], by norm_num [pZeroIncome], by norm_num [pZeroIncome],
    he, ?_⟩
  simp [analyzeRisks, he]

/-! ### Sensitivity analysis bounds -/

theorem list_sum_map_sub {α : Type} (l : List α) (f g : α → ℚ) :
    (l.map fun a => f a - g a).sum = (l.map f).sum - (l.map g).sum := by
  induction l with
  | nil => simp
  | cons x t ih =>
      simp only [List.map_cons, List.sum_cons, ih]
      ring

theorem scenario_le_base_aux (I R u cm : ℚ) (hI : 0 < I) (hR : 0 ≤ R)
    (hu : 0 ≤ u) (hcm : 0 < cm) (hle : u ≤ cm) :
    (R * u - I * cm) / (I * cm) * 100 ≤ (R - I) / I * 100 := by
  have h1 : (R * u - I * cm) / (I * cm) ≤ (R - I) / I := by
    rw [div_le_div_iff₀ (by positivity) hI]
    nlinarith [mul_le_mul_of_nonneg_left hle (mul_nonneg hR hI.le)]
  nlinarith [h1]

/-- The closed form every successful scenario computation reduces to. -/
def scenarioValue (crops : List RankedCrop) (ym pm cm : ℚ) : ℚ :=
  ((crops.map (·.expected_revenue)).sum * (ym * pm)
      - (crops.map (·.investment)).sum * cm)
    / ((crops.map (·.investment)).sum * cm) * 100

theorem calcScenarioRoi_eq (crops : List RankedCrop) (hne : crops ≠ [])
    (hy : ∀ c ∈ crops, c.expected_yield ≠ 0)
    (hI : 0 < (crops.map (·.investment)).sum)
    (ym pm cm : ℚ) (hcm : 0 < cm) :
    calcScenarioRoi crops ym pm cm = some (scenarioValue crops ym pm cm) := by
  have hany : (crops.any fun c => c.expected_yield == 0) = false := by
    rw [List.any_eq_false]
    intro c hc
    simpa using hy c hc
  have hinv : (crops.map fun c => c.investment * cm).sum
      = (crops.map (·.investment)).sum * cm := List.sum_map_mul_right crops _ cm
  have hrev : (crops.map fun c =>
        c.expected_yield * ym * (c.expected_revenue / c.expected_yield) * pm).sum
      = (crops.map (·.expected_revenue)).sum * (ym * pm) := by
    rw [List.map_congr_left (g := fun c => c.expected_revenue * (ym * pm))
      (fun c hc => by
        have h0 := hy c hc
        field_simp
        ring)]
    exact List.sum_map_mul_right crops _ (ym * pm)
  rw [calcScenarioRoi, if_neg hne, hany, if_neg (by simp), hinv, hrev,
    if_pos (by positivity)]
  rfl

theorem scenarioValue_le_base (crops : List RankedCrop)
    (hI : 0 < (crops.map (·.investment)).sum)
    (hR : 0 ≤ (crops.map (·.expected_revenue)).sum)
    (ym pm cm : ℚ) (hu : 0 ≤ ym * pm) (hcm : 0 < cm) (hle : ym * pm ≤ cm) :
    scenarioValue crops ym pm cm
      ≤ ((crops.map (·.expected_revenue)).sum - (crops.map (·.investment)).sum)
          / (crops.map (·.investment)).sum * 100 :=
  scenario_le_base_aux _ _ _ _ hI hR hu hcm hle

/-- C2 (amended): for every non-empty ranked crop list with positive total
investment whose crops are engine-shaped (net profit = revenue −
investment, revenue non-negative, positive expected yield), the
sensitivity analysis succeeds and satisfies worst_case_roi ≤ best_case_roi
≤ base_roi: all six stress scenarios are adverse, so the best case cannot
exceed the baseline. -/
theorem sensitivity_worst_le_best_le_base (p : FarmerProfile) (month : ℕ)
    (recs : Recommendations) (hne : recs.crops ≠ [])
    (hI : 0 < (recs.crops.map (·.investment)).sum)
    (hWF : ∀ c ∈ recs.crops, c.net_profit = c.expected_revenue - c.investment
      ∧ 0 ≤ c.expected_revenue ∧ c.expected_yield ≠ 0) :
    ∃ s, performSensitivityAnalysis p month recs = some s
      ∧ s.worst_case_roi ≤ s.best_case_roi
      ∧ s.best_case_roi ≤ s.base_roi := by
  have hy : ∀ c ∈ recs.crops, c.expected_yield ≠ 0 := fun c hc => (hWF c hc).2.2
  have hR : 0 ≤ (recs.crops.map (·.expected_revenue)).sum :=
    List.sum_nonneg (fun x hx => by
      rcases List.mem_map.mp hx with ⟨c, hc, rfl⟩
      exact (hWF c hc).2.1)
  have hbase : (analyzeFinancials p month recs).roi
      = ((recs.crops.map (·.expected_revenue)).sum
          - (recs.crops.map (·.investment)).sum)
        / (recs.crops.map (·.investment)).sum * 100 := by
    have hP : (recs.crops.map (·.net_profit)).sum
        = (recs.crops.map (·.expected_revenue)).sum
          - (recs.crops.map (·.investment)).sum := by
      rw [List.map_congr_left
        (g := fun c => c.expected_revenue - c.investment)
        (fun c hc => (hWF c hc).1)]
      exact list_sum_map_sub recs.crops _ _
    simp only [analyzeFinancials, if_neg hne, if_pos hI, hP]
  have hsens : performSensitivityAnalysis p month recs = some
      { base_roi := (analyzeFinancials p month recs).roi
        yield_reduction_20 := scenarioValue recs.crops 0.8 1 1
        yield_reduction_40 := scenarioValue recs.crops 0.6 1 1
        price_reduction_15 := scenarioValue recs.crops 1 0.85 1
        price_reduction_30 := scenarioValue recs.crops 1 0.7 1
        cost_increase_20 := scenarioValue recs.crops 1 1 1.2
        cost_increase_40 := scenarioValue recs.crops 1 1 1.4
        worst_case_roi := min (scenarioValue recs.crops 0.8 1 1)
          (min (scenarioValue recs.crops 0.6 1 1)
            (min (scenarioValue recs.crops 1 0.85 1)
              (min (scenarioValue recs.crops 1 0.7 1)
                (min (scenarioValue recs.crops 1 1 1.2)
                  (scenarioValue recs.crops 1 1 1.4)))))
        best_case_roi := max (scenarioValue recs.crops 0.8 1 1)
          (max (scenarioValue recs.crops 0.6 1 1)
            (max (scenarioValue recs.crops 1 0.85 1)
              (max (scenarioValue recs.crops 1 0.7 1)
                (max (scenarioValue recs.crops 1 1 1.2)
                  (scenarioValue recs.crops 1 1 1.4))))) } := by
    rw [performSensitivityAnalysis,
      calcScenarioRoi_eq recs.crops hne hy hI 0.8 1 1 (by norm_num),
      calcScenarioRoi_eq recs.crops hne hy hI 0.6 1 1 (by norm_num),
      calcScenarioRoi_eq recs.crops hne hy hI 1 0.85 1 (by norm_num),
      calcScenarioRoi_eq recs.crops hne hy hI 1 0.7 1 (by norm_num),
      calcScenarioRoi_eq recs.crops hne hy hI 1 1 1.2 (by norm_num),
      calcScenarioRoi_eq recs.crops hne hy hI 1 1 1.4 (by norm_num)]
    rfl
  refine ⟨_, hsens, le_trans (min_le_left _ _) (le_max_left _ _), ?_⟩
  show max _ (max _ (max _ (max _ (max _ _)))) ≤ _
  rw [hbase]
  refine max_le (scenarioValue_le_base _ hI hR 0.8 1 1 (by norm_num) (by norm_num)
      (by norm_num))
    (max_le (scenarioValue_le_base _ hI hR 0.6 1 1 (by norm_num) (by norm_num)
        (by norm_num))
      (max_le (scenarioValue_le_base _ hI hR 1 0.85 1 (by norm_num) (by norm_num)
          (by norm_num))
        (max_le (scenarioValue_le_base _ hI hR 1 0.7 1 (by norm_num) (by norm_num)
            (by norm_num))
          (max_le (scenarioValue_le_base _ hI hR 1 1 1.2 (by norm_num) (by norm_num)
              (by norm_num))
            (scenarioValue_le_base _ hI hR 1 1 1.4 (by norm_num) (by norm_num)
              (by norm_num))))))

/-- A concrete engine-shaped ranked crop: investment 25000, revenue 50000,
ROI 100%. -/
def cropC2 : RankedCrop :=
  { name := "Wheat", category := "Cereal", expected_yield := 3.5,
    sowing_season := "October-November", harvest_time := "March-April",
    water_requirement := "Medium", growth_duration := 120, investment := 25000,
    expected_revenue := 50000, net_profit := 25000, roi := 100,
    risk_level := "Low", irrigation_cost := 5000, risk_score := 0.2 }

/-- A concrete recommendation bundle holding just cropC2. -/
def recsC2 : Recommendations where
  crops := [cropC2]
  total_recommendations := 1
  risk_profile := { level := "Low", score := 0.2, distribution := some ⟨1, 0, 0⟩ }
  investment_summary :=
    { total_investment := 25000, affordable_crops := 1,
      investment_per_acre := some 5000, utilization_rate := some 25 }

/-- C2 (witness): the amended sensitivity bound instantiated on the concrete
single-crop recommendation bundle. -/
theorem sensitivity_worst_le_best_le_base_instance :
    ∃ s, performSensitivityAnalysis pC5 5 recsC2 = some s
      ∧ s.worst_case_roi ≤ s.best_case_roi
      ∧ s.best_case_roi ≤ s.base_roi :=
  sensitivity_worst_le_best_le_base pC5 5 recsC2 (by simp [recsC2])
    (by norm_num [recsC2, cropC2])
    (fun c hc => by
      have hc2 : c = cropC2 := by simpa [recsC2] using hc
      rw [hc2]
      refine ⟨by norm_num [cropC2], by norm_num [cropC2], by norm_num [cropC2]⟩)

/-- C2 (counterexample): on the single-crop bundle, the baseline ROI is 100
but the best stress-scenario ROI is only 70 (price −15%), so the claimed
base_roi ≤ best_case_roi fails: every scenario is adverse. -/
theorem sensitivity_best_below_base :
    performSensitivityAnalysis pC5 5 recsC2 = some
      { base_roi := 100, yield_reduction_20 := 60, yield_reduction_40 := 20,
        price_reduction_15 := 70, price_reduction_30 := 40,
        cost_increase_20 := 200 / 3, cost_increase_40 := 300 / 7,
        worst_case_roi := 20, best_case_roi := 70 }
      ∧ ¬ (100 : ℚ) ≤ 70 := by
  have hne : recsC2.crops ≠ [] := by simp [recsC2]
  have hy : ∀ c ∈ recsC2.crops, c.expected_yield ≠ 0 := fun c hc => by
    have hc2 : c = cropC2 := by simpa [recsC2] using hc
    rw [hc2]
    norm_num [cropC2]
  have hI : 0 < (recsC2.crops.map (·.investment)).sum := by norm_num [recsC2, cropC2]
  have hroi : (analyzeFinancials pC5 5 recsC2).roi = 100 := by
    simp only [analyzeFinancials, if_neg hne]
    norm_num [recsC2, cropC2]
  have hv : ∀ ym pm cm : ℚ, scenarioValue recsC2.crops ym pm cm
      = (50000 * (ym * pm) - 25000 * cm) / (25000 * cm) * 100 := by
    intro ym pm cm
    norm_num [scenarioValue, recsC2, cropC2]
  constructor
  · rw [performSensitivityAnalysis,
      calcScenarioRoi_eq recsC2.crops hne hy hI 0.8 1 1 (by norm_num),
      calcScenarioRoi_eq recsC2.crops hne hy hI 0.6 1 1 (by norm_num),
      calcScenarioRoi_eq recsC2.crops hne hy hI 1 0.85 1 (by norm_num),
      calcScenarioRoi_eq recsC2.crops hne hy hI 1 0.7 1 (by norm_num),
      calcScenarioRoi_eq recsC2.crops hne hy hI 1 1 1.2 (by norm_num),
      calcScenarioRoi_eq recsC2.crops hne hy hI 1 1 1.4 (by norm_num)]
    simp only [bind, Option.bind]
    rw [hroi]
    norm_num [hv, min_def, max_def]
  · norm_num

/-! ### Determinism of the pipeline -/

/-- C5 (amended): the decision pipeline is a deterministic pure function of
the farmer attributes TOGETHER WITH the wall-clock calendar month: two
runs on equal profiles in the same month produce equal outputs for all
three stages, and in particular re-running the crop ranking with
identical input yields the same list in the same order. -/
theorem pipeline_deterministic_given_month (p q : FarmerProfile) (m n : ℕ)
    (hpq : p = q) (hmn : m = n) :
    fullPipeline p m = fullPipeline q n
      ∧ getRecommendations p m = getRecommendations q n := by
  subst hpq
  subst hmn
  exact ⟨rfl, rfl⟩

/-- C5 (witness): determinism instantiated on a concrete profile and month. -/
theorem pipeline_deterministic_given_month_instance :
    fullPipeline pC5 10 = fullPipeline pC5 10
      ∧ getRecommendations pC5 10 = getRecommendations pC5 10 :=
  pipeline_deterministic_given_month pC5 pC5 10 10 rfl rfl

/-- C5 (counterexample): the same profile run in October (month 10) and in
June (month 6) produces different pipeline outputs — the Rabi seasonal
price multiplier 1.1 applies to wheat and pulses in October only, so the
expected revenues of the ranked crops differ: the wall-clock month read by
datetime.now() is hidden state the outputs depend on. -/
theorem pipeline_depends_on_wall_clock_month :
    fullPipeline pC5 10 ≠ fullPipeline pC5 6 := by
  intro h
  have h2 := congrArg (fun out => out.recommendations.crops.map (·.expected_revenue)) h
  simp only [fullPipeline] at h2
  have h3 : (getRecommendations pC5 10).crops.map (·.expected_revenue)
      ≠ (getRecommendations pC5 6).crops.map (·.expected_revenue) := by
    norm_num +decide [getRecommendations, rankCrops, filterSuitableCrops, cropDatabase, pC5,
      FarmerProfile.region, FarmerProfile.climateZone, waterCompatible,
      List.filter, List.insertionSort, List.orderedInsert, mkRankedCrop,
      adjustYield, adjustPrice, adjustInvestment, irrigationCost, riskScore,
      rankRel, rankKey, round2, List.map]
  exact h3 h2
